import Mathlib

/-!
Shallow embedding of the Google Drive connector service (src/main.py).

Strings that carry document content are modelled as `List Char`; identifiers,
names and MIME types as `String`; byte buffers as `List Nat` (each entry one
byte).  External libraries (the Google SDK, PyPDF2, the filesystem) appear as
explicit parameters: the provider is a record of total/fallible functions, the
PDF text extractor is a function from bytes to per-page texts.
-/

/-- Python truthiness of an optional environment string: `os.getenv` yields
`None` when unset; `if value:` is false for `None` and for the empty string. -/
def pyTruthy : Option String → Bool
  | none => false
  | some s => !s.toList.isEmpty

/-- Python `str.startswith`, on the character lists of the two strings. -/
def pyStartsWith (s pre : String) : Bool :=
  pre.toList.isPrefixOf s.toList

/-- The characters removed by Python's `str.strip()` (ASCII whitespace). -/
def isPySpace (c : Char) : Bool :=
  c = ' ' || c = '\t' || c = '\n' || c = '\r' || c = '\x0b' || c = '\x0c'

/-- Python `str.strip()`: remove trailing then leading whitespace. -/
def pyStrip (l : List Char) : List Char :=
  ((l.reverse.dropWhile isPySpace).reverse).dropWhile isPySpace

/-- The accumulation loop of `MediaIoBaseDownload`: `while done is False:
status, done = downloader.next_chunk()`, each successful chunk appended to the
`BytesIO` buffer, until the provider signals completion. -/
def downloadLoop (buf : List Nat) : List (List Nat) → List Nat
  | [] => buf
  | c :: cs => downloadLoop (buf ++ c) cs

/-- Full chunked download: run the loop from an empty buffer over the chunk
sequence the provider delivers. -/
def downloadAll (chunks : List (List Nat)) : List Nat :=
  downloadLoop [] chunks

/-- Strict UTF-8 decoding, as Python's `bytes.decode('utf-8')`: rejects
truncated sequences, stray continuation bytes, overlong encodings, surrogate
code points and values beyond U+10FFFF; returns `none` on failure
(`UnicodeDecodeError`). -/
def decodeUtf8 : List Nat → Option (List Char)
  | [] => some []
  | b1 :: t1 =>
    if b1 < 0x80 then
      (decodeUtf8 t1).map (fun cs => Char.ofNat b1 :: cs)
    else if b1 < 0xC2 then
      none
    else if b1 < 0xE0 then
      match t1 with
      | b2 :: t2 =>
        if 0x80 ≤ b2 ∧ b2 < 0xC0 then
          (decodeUtf8 t2).map (fun cs =>
            Char.ofNat ((b1 - 0xC0) * 0x40 + (b2 - 0x80)) :: cs)
        else none
      | [] => none
    else if b1 < 0xF0 then
      match t1 with
      | b2 :: b3 :: t3 =>
        if (0x80 ≤ b2 ∧ b2 < 0xC0) ∧ (0x80 ≤ b3 ∧ b3 < 0xC0) ∧
           (b1 ≠ 0xE0 ∨ 0xA0 ≤ b2) ∧ (b1 ≠ 0xED ∨ b2 < 0xA0) then
          (decodeUtf8 t3).map (fun cs =>
            Char.ofNat ((b1 - 0xE0) * 0x1000 + (b2 - 0x80) * 0x40 + (b3 - 0x80)) :: cs)
        else none
      | _ => none
    else if b1 < 0xF5 then
      match t1 with
      | b2 :: b3 :: b4 :: t4 =>
        if (0x80 ≤ b2 ∧ b2 < 0xC0) ∧ (0x80 ≤ b3 ∧ b3 < 0xC0) ∧
           (0x80 ≤ b4 ∧ b4 < 0xC0) ∧
           (b1 ≠ 0xF0 ∨ 0x90 ≤ b2) ∧ (b1 ≠ 0xF4 ∨ b2 < 0x90) then
          (decodeUtf8 t4).map (fun cs =>
            Char.ofNat ((b1 - 0xF0) * 0x40000 + (b2 - 0x80) * 0x1000 +
              (b3 - 0x80) * 0x40 + (b4 - 0x80)) :: cs)
        else none
      | _ => none
    else none

/-- FastAPI's `HTTPException`: an HTTP status code plus a detail message. -/
structure HTTPException where
  status_code : Nat
  detail : String
deriving DecidableEq, Repr

/-- The Python exceptions the service can raise or observe. -/
inductive PyErr where
  /-- `fastapi.HTTPException` -/
  | http (e : HTTPException)
  /-- `ValueError` -/
  | valueError (msg : String)
  /-- `googleapiclient.errors.HttpError`, carried as its rendered message -/
  | httpError (msg : String)
  /-- `UnicodeDecodeError` from `bytes.decode` -/
  | unicodeDecodeError (msg : String)
  /-- any other exception, carried as its rendered message -/
  | other (msg : String)
deriving DecidableEq, Repr

/-- Python `str(e)` on an exception: Starlette's `HTTPException.__str__`
renders `"{status_code}: {detail}"`; the rest render their message. -/
def pyStr : PyErr → String
  | .http e => toString e.status_code ++ (": ") ++ e.detail
  | .valueError m => m
  | .httpError m => m
  | .unicodeDecodeError m => m
  | .other m => m

/-- An authenticated Drive client handle (`build('drive', 'v3', ...)`),
opaque to the service logic. -/
structure Session where
  handle : Nat
deriving DecidableEq, Repr

/-- Process environment and the external credential machinery `authenticate`
touches: the two credential variables, the folder id, filesystem existence,
and the two fallible credential-loading paths (file-based and inline JSON),
each returning a built client or the raised exception's message. -/
structure Env where
  gdriveFolderId : Option String
  credPath : Option String
  credJson : Option String
  pathExists : String → Bool
  loadFileCreds : String → Except String Session
  loadInfoCreds : String → Except String Session

/-- Mutable state of the `DriveService` singleton: the lazily established
session and the configured folder identifier. -/
structure ServiceState where
  service : Option Session
  folder_id : String
deriving DecidableEq, Repr

/-- `DriveService.__init__`: read `GDRIVE_FOLDER_ID`; a missing (or empty,
hence falsy) value raises `ValueError` before the service exists. -/
def DriveService.init (env : Env) : Except PyErr ServiceState :=
  match env.gdriveFolderId with
  | none => .error (.valueError ("GDRIVE_FOLDER_ID environment variable is required"))
  | some fid =>
    if fid.toList.isEmpty then
      .error (.valueError ("GDRIVE_FOLDER_ID environment variable is required"))
    else
      .ok { service := none, folder_id := fid }

/-- Whether the process reaches the point of serving requests: the module-level
`drive_service = DriveService()` must have succeeded. -/
def service_ready (env : Env) : Bool :=
  (DriveService.init env).isOk

/-- Body of `DriveService.authenticate` before its `except Exception` wrapper:
try the credential file path (truthy and existing), then the inline JSON
variable (truthy), else raise `ValueError`. -/
def authenticateInner (env : Env) : Except PyErr Session :=
  if pyTruthy env.credPath && env.pathExists (env.credPath.getD "") then
    match env.loadFileCreds (env.credPath.getD "") with
    | .ok s => .ok s
    | .error m => .error (.other m)
  else if pyTruthy env.credJson then
    match env.loadInfoCreds (env.credJson.getD "") with
    | .ok s => .ok s
    | .error m => .error (.other m)
  else
    .error (.valueError ("No valid Google credentials found. Set GOOGLE_APPLICATION_CREDENTIALS or GOOGLE_SERVICE_ACCOUNT_JSON"))

/-- `DriveService.authenticate`: any failure of the body is wrapped into
`HTTPException(500, "Authentication failed: " + str(e))`. -/
def authenticate (env : Env) : Except HTTPException Session :=
  match authenticateInner env with
  | .ok s => .ok s
  | .error e => .error ⟨500, ("Authentication failed: ") ++ pyStr e⟩

/-- A file entry as stored by the provider. -/
structure DriveFile where
  id : String
  name : String
  mimeType : String
  parents : List String
  trashed : Bool
deriving DecidableEq, Repr

/-- The structured content of the query string the service builds:
`"'<folder_id>' in parents and trashed=false"`. -/
structure DriveQuery where
  parent : String
  includeTrashed : Bool
deriving DecidableEq, Repr

/-- Provider-side evaluation of a query term against one stored entry. -/
def matchesQuery (q : DriveQuery) (f : DriveFile) : Bool :=
  f.parents.contains q.parent && (q.includeTrashed || !f.trashed)

/-- The remote storage provider as observed by this service: its stored
entries in its own enumeration order, an optionally injected listing failure
(`HttpError`, carried as its message), the metadata endpoint, and the chunk
sequences its export and media-download endpoints deliver. -/
structure Provider where
  drive : List DriveFile
  listError : Option String
  getMetaResult : String → Except String (String × String)
  exportChunks : String → String → List (List Nat)
  mediaChunks : String → List (List Nat)

/-- `service.files().list(q=..., fields=...).execute()`: fail with the
injected `HttpError` if any, else return the entries matching the query, in
the provider's order. -/
def providerFilesList (p : Provider) (q : DriveQuery) : Except String (List DriveFile) :=
  match p.listError with
  | some m => .error m
  | none => .ok (p.drive.filter (matchesQuery q))

/-- Response model `FileInfo`. -/
structure FileInfo where
  id : String
  name : String
deriving DecidableEq, Repr

/-- Response model `FileContent` (content as decoded text). -/
structure FileContent where
  id : String
  name : String
  content : List Char
deriving DecidableEq, Repr

/-- The `if not self.service: self.authenticate()` prelude shared by both
operations: reuse the session if present, else authenticate and store it. -/
def ensure_session (env : Env) (st : ServiceState) : Except HTTPException (Session × ServiceState) :=
  match st.service with
  | some s => .ok (s, st)
  | none =>
    match authenticate env with
    | .ok s => .ok (s, { st with service := some s })
    | .error e => .error e

/-- `DriveService.list_files`: ensure a session, query the provider for the
non-trashed children of the configured folder, and map the result verbatim to
`FileInfo` records; an `HttpError` becomes `HTTPException(400, "Error listing
files: " + str(e))`. -/
def list_files (env : Env) (st : ServiceState) (p : Provider) :
    Except PyErr (List FileInfo × ServiceState) :=
  match ensure_session env st with
  | .error e => .error (.http e)
  | .ok (_, st') =>
    match providerFilesList p { parent := st'.folder_id, includeTrashed := false } with
    | .error m => .error (.http ⟨400, ("Error listing files: ") ++ m⟩)
    | .ok files => .ok (files.map (fun f => { id := f.id, name := f.name }), st')

/-- `DriveService._export_google_doc`: provider-side export to `text/plain`,
chunked download, UTF-8 decode. -/
def export_google_doc (p : Provider) (file_id : String) : Except PyErr (List Char) :=
  match decodeUtf8 (downloadAll (p.exportChunks file_id ("text/plain"))) with
  | some txt => .ok txt
  | none => .error (.unicodeDecodeError ("utf-8 codec cannot decode exported bytes"))

/-- `DriveService._export_google_sheet`: provider-side export to `text/csv`,
chunked download, UTF-8 decode. -/
def export_google_sheet (p : Provider) (file_id : String) : Except PyErr (List Char) :=
  match decodeUtf8 (downloadAll (p.exportChunks file_id ("text/csv"))) with
  | some txt => .ok txt
  | none => .error (.unicodeDecodeError ("utf-8 codec cannot decode exported bytes"))

/-- `DriveService._export_google_slides`: provider-side export to
`text/plain`, chunked download, UTF-8 decode. -/
def export_google_slides (p : Provider) (file_id : String) : Except PyErr (List Char) :=
  match decodeUtf8 (downloadAll (p.exportChunks file_id ("text/plain"))) with
  | some txt => .ok txt
  | none => .error (.unicodeDecodeError ("utf-8 codec cannot decode exported bytes"))

/-- `DriveService._extract_pdf_text`: chunked media download, then PyPDF2
(modelled by `pdfExtract`, bytes to per-page texts), then
`for page in pages: text += page.extract_text() + "\n"` and `text.strip()`. -/
def extract_pdf_text (pdfExtract : List Nat → List (List Char)) (p : Provider)
    (file_id : String) : List Char :=
  pyStrip ((pdfExtract (downloadAll (p.mediaChunks file_id))).foldl
    (fun acc pg => acc ++ pg ++ ['\n']) [])

/-- `DriveService._download_text_file`: chunked media download, UTF-8 decode. -/
def download_text_file (p : Provider) (file_id : String) : Except PyErr (List Char) :=
  match decodeUtf8 (downloadAll (p.mediaChunks file_id)) with
  | some txt => .ok txt
  | none => .error (.unicodeDecodeError ("utf-8 codec cannot decode file bytes"))

/-- `DriveService.get_file_content`: ensure a session, fetch metadata,
dispatch on the declared MIME type to one of the five extraction strategies,
else raise `HTTPException(400, "Unsupported file type: " + mime_type)`.
An `HttpError` (here: from the metadata fetch) becomes
`HTTPException(400, "Error getting file content: " + str(e))`; the
unsupported-type `HTTPException` and decode errors are not `HttpError` and
propagate unchanged. -/
def get_file_content (env : Env) (st : ServiceState) (p : Provider)
    (pdfExtract : List Nat → List (List Char)) (file_id : String) :
    Except PyErr (FileContent × ServiceState) :=
  match ensure_session env st with
  | .error e => .error (.http e)
  | .ok (_, st') =>
    match p.getMetaResult file_id with
    | .error m => .error (.http ⟨400, ("Error getting file content: ") ++ m⟩)
    | .ok (file_name, mime_type) =>
      if mime_type = "application/vnd.google-apps.document" then
        (export_google_doc p file_id).map (fun c => (⟨file_id, file_name, c⟩, st'))
      else if mime_type = "application/vnd.google-apps.spreadsheet" then
        (export_google_sheet p file_id).map (fun c => (⟨file_id, file_name, c⟩, st'))
      else if mime_type = "application/vnd.google-apps.presentation" then
        (export_google_slides p file_id).map (fun c => (⟨file_id, file_name, c⟩, st'))
      else if mime_type = "application/pdf" then
        .ok (⟨file_id, file_name, extract_pdf_text pdfExtract p file_id⟩, st')
      else if pyStartsWith mime_type ("text/") then
        (download_text_file p file_id).map (fun c => (⟨file_id, file_name, c⟩, st'))
      else
        .error (.http ⟨400, ("Unsupported file type: ") ++ mime_type⟩)

/-- An HTTP response at the framework boundary: a serialized body on success,
or the error response FastAPI renders from a raised `HTTPException`. -/
inductive HTTPResponse (α : Type) where
  | ok (body : α)
  | error (e : HTTPException)
deriving DecidableEq, Repr

/-- The `GET /files` handler: `try: return drive_service.list_files() except
Exception as e: raise HTTPException(status_code=500, detail=str(e))` — every
exception, the service's own `HTTPException` included, is converted to a 500
response carrying `str(e)`. -/
def list_files_endpoint (env : Env) (st : ServiceState) (p : Provider) :
    HTTPResponse (List FileInfo) :=
  match list_files env st p with
  | .ok (files, _) => .ok files
  | .error e => .error ⟨500, pyStr e⟩

/-- The `GET /file/{file_id}` handler, with the same catch-all wrapper. -/
def get_file_endpoint (env : Env) (st : ServiceState) (p : Provider)
    (pdfExtract : List Nat → List (List Char)) (file_id : String) :
    HTTPResponse FileContent :=
  match get_file_content env st p pdfExtract file_id with
  | .ok (c, _) => .ok c
  | .error e => .error ⟨500, pyStr e⟩

/-- The `startup` hook: attempt authentication, log and swallow any failure;
returns the (possibly updated) state and whether the service becomes ready —
which it always does once the module loaded. -/
def startup_event (env : Env) (st : ServiceState) : ServiceState × Bool :=
  match authenticate env with
  | .ok s => ({ st with service := some s }, true)
  | .error _ => (st, true)

/-- Spec-side description of the list result, written from the spec's words:
"exactly the non-trashed entries whose parent matches", returned "verbatim as
FileInfo records" in the provider's order. -/
def listFilesSpec (p : Provider) (folderId : String) : List FileInfo :=
  (p.drive.filter (fun f => f.parents.contains folderId && !f.trashed)).map
    (fun f => { id := f.id, name := f.name })

/-- Spec-side description of the PDF page join, written from the spec's words:
"per-page extracted text joined by newlines". -/
def specJoinPages : List (List Char) → List Char
  | [] => []
  | [pg] => pg
  | pg :: rest => pg ++ '\n' :: specJoinPages rest

lemma downloadLoop_eq_join (chunks : List (List Nat)) (buf : List Nat) :
    downloadLoop buf chunks = buf ++ chunks.flatten := by
  induction chunks generalizing buf with
  | nil => simp [downloadLoop]
  | cons c cs ih => simp [downloadLoop, ih]

lemma downloadAll_eq_join (chunks : List (List Nat)) :
    downloadAll chunks = chunks.flatten := by
  simp [downloadAll, downloadLoop_eq_join]

lemma isPySpace_nl : isPySpace '\n' = true := rfl

lemma pyStrip_append_nl (l : List Char) :
    pyStrip (l ++ ['\n']) = pyStrip l := by
  simp [pyStrip, List.reverse_append, List.dropWhile_cons, isPySpace_nl]

lemma foldl_append_nl (pages : List (List Char)) (acc : List Char) :
    pages.foldl (fun a pg => a ++ pg ++ ['\n']) acc =
      acc ++ (pages.map (fun pg => pg ++ ['\n'])).flatten := by
  induction pages generalizing acc with
  | nil => simp
  | cons pg rest ih =>
    rw [List.foldl_cons, ih]
    simp

lemma map_join_nl (pages : List (List Char)) :
    (pages.map (fun pg => pg ++ ['\n'])).flatten =
      (if pages.isEmpty then [] else specJoinPages pages ++ ['\n']) := by
  induction pages with
  | nil => simp
  | cons pg rest ih =>
    cases rest with
    | nil => simp [specJoinPages]
    | cons q qs =>
      simp only [List.map_cons, List.flatten_cons] at ih ⊢
      rw [ih]
      simp [specJoinPages]

lemma extract_pdf_text_eq (pdfExtract : List Nat → List (List Char))
    (p : Provider) (fid : String) :
    extract_pdf_text pdfExtract p fid =
      pyStrip (specJoinPages (pdfExtract (downloadAll (p.mediaChunks fid)))) := by
  unfold extract_pdf_text
  generalize pdfExtract (downloadAll (p.mediaChunks fid)) = pages
  rw [foldl_append_nl, map_join_nl]
  cases pages with
  | nil => simp [specJoinPages]
  | cons pg rest => simp [pyStrip_append_nl]

/-- Claim C1: for every file whose declared content type is none of the three
native Google formats, PDF, or a type with a "text/" prefix, the get-content
operation fails with a 400 `HTTPException` whose message names the offending
content type. -/
theorem getContent_unsupported_type_400 (env : Env) (st : ServiceState)
    (p : Provider) (pdfExtract : List Nat → List (List Char)) (fid : String)
    (s : Session) (name mime : String)
    (hs : st.service = some s)
    (hm : p.getMetaResult fid = .ok (name, mime))
    (h1 : mime ≠ "application/vnd.google-apps.document")
    (h2 : mime ≠ "application/vnd.google-apps.spreadsheet")
    (h3 : mime ≠ "application/vnd.google-apps.presentation")
    (h4 : mime ≠ "application/pdf")
    (h5 : pyStartsWith mime ("text/") = false) :
    get_file_content env st p pdfExtract fid =
      .error (.http ⟨400, ("Unsupported file type: ") ++ mime⟩) := by
  simp [get_file_content, ensure_session, hs, hm, h1, h2, h3, h4, h5]

/-- Claim C2: a provider API error during folder enumeration makes the list
operation fail with a 400 `HTTPException` embedding the provider's message. -/
theorem listFiles_provider_error_400 (env : Env) (st : ServiceState)
    (p : Provider) (s : Session) (m : String)
    (hs : st.service = some s) (he : p.listError = some m) :
    list_files env st p =
      .error (.http ⟨400, ("Error listing files: ") ++ m⟩) := by
  simp [list_files, ensure_session, hs, providerFilesList, he]

/-- Claim C3: on a PDF, the get-content operation returns the per-page
extracted texts joined by newline separators, with leading and trailing
whitespace stripped from the combined result. -/
theorem getContent_pdf_pages_joined (env : Env) (st : ServiceState)
    (p : Provider) (pdfExtract : List Nat → List (List Char)) (fid : String)
    (s : Session) (name : String)
    (hs : st.service = some s)
    (hm : p.getMetaResult fid = .ok (name, "application/pdf")) :
    get_file_content env st p pdfExtract fid =
      .ok ({ id := fid, name := name,
             content := pyStrip (specJoinPages
               (pdfExtract (downloadAll (p.mediaChunks fid)))) }, st) := by
  simp [get_file_content, ensure_session, hs, hm, extract_pdf_text_eq]

/-- Claim C4: credential resolution order — existing configured file path
first, then inline credential text, else the "no valid credentials"
`ValueError`; and every authentication failure surfaces as a 500. -/
theorem authenticate_resolution_order (env : Env) :
    ((pyTruthy env.credPath && env.pathExists (env.credPath.getD "")) = true →
      authenticate env =
        (match env.loadFileCreds (env.credPath.getD "") with
          | .ok s => .ok s
          | .error m => .error ⟨500, ("Authentication failed: ") ++ m⟩)) ∧
    ((pyTruthy env.credPath && env.pathExists (env.credPath.getD "")) = false →
      pyTruthy env.credJson = true →
      authenticate env =
        (match env.loadInfoCreds (env.credJson.getD "") with
          | .ok s => .ok s
          | .error m => .error ⟨500, ("Authentication failed: ") ++ m⟩)) ∧
    ((pyTruthy env.credPath && env.pathExists (env.credPath.getD "")) = false →
      pyTruthy env.credJson = false →
      authenticate env = .error ⟨500, ("Authentication failed: ") ++
        ("No valid Google credentials found. Set GOOGLE_APPLICATION_CREDENTIALS or GOOGLE_SERVICE_ACCOUNT_JSON")⟩) ∧
    (∀ e, authenticate env = .error e → e.status_code = 500) := by
  refine ⟨?_, ?_, ?_, ?_⟩
  · intro h
    cases hL : env.loadFileCreds (env.credPath.getD "") with
    | ok s => simp [authenticate, authenticateInner, h, hL]
    | error m => simp [authenticate, authenticateInner, h, hL, pyStr]
  · intro h hj
    cases hL : env.loadInfoCreds (env.credJson.getD "") with
    | ok s => simp [authenticate, authenticateInner, h, hj, hL]
    | error m => simp [authenticate, authenticateInner, h, hj, hL, pyStr]
  · intro h hj
    simp [authenticate, authenticateInner, h, hj, pyStr]
  · intro e he
    unfold authenticate at he
    revert he
    cases authenticateInner env with
    | ok s => intro he; simp at he
    | error e2 =>
      intro he
      injection he with h2
      rw [← h2]

/-- Claim C5: the list operation queries exactly the non-trashed entries whose
parent is the configured folder and returns the provider's result verbatim as
FileInfo records, in the provider's order. -/
theorem listFiles_exactly_matching (env : Env) (st : ServiceState)
    (p : Provider) (s : Session)
    (hs : st.service = some s) (hok : p.listError = none) :
    list_files env st p = .ok (listFilesSpec p st.folder_id, st) := by
  have hq : matchesQuery { parent := st.folder_id, includeTrashed := false } =
      (fun f => f.parents.contains st.folder_id && !f.trashed) := by
    funext f
    simp [matchesQuery]
  simp [list_files, ensure_session, hs, providerFilesList, hok, listFilesSpec, hq]

/-- Claim C6: accumulating any chunk partition of a byte content through the
chunked-download loop yields the same bytes as a single-chunk delivery. -/
theorem chunked_download_accumulation (content : List Nat)
    (chunks : List (List Nat)) (h : chunks.flatten = content) :
    downloadAll chunks = downloadAll [content] := by
  simp [downloadAll_eq_join, h]

/-- Claim C7: on a native word-processor document, the get-content operation
returns exactly the provider's plain-text export bytes decoded as UTF-8,
with no further transformation. -/
theorem getContent_doc_utf8_verbatim (env : Env) (st : ServiceState)
    (p : Provider) (pdfExtract : List Nat → List (List Char)) (fid : String)
    (s : Session) (name : String) (txt : List Char)
    (hs : st.service = some s)
    (hm : p.getMetaResult fid = .ok (name, "application/vnd.google-apps.document"))
    (hd : decodeUtf8 (downloadAll (p.exportChunks fid ("text/plain"))) = some txt) :
    get_file_content env st p pdfExtract fid =
      .ok ({ id := fid, name := name, content := txt }, st) := by
  simp [get_file_content, ensure_session, hs, hm, export_google_doc, hd,
    Except.map]

/-- Claim C8: a missing `GDRIVE_FOLDER_ID` makes `DriveService.__init__`
raise, so the process never becomes ready to serve requests. -/
theorem missing_folder_id_fatal (env : Env) (h : env.gdriveFolderId = none) :
    DriveService.init env =
      .error (.valueError ("GDRIVE_FOLDER_ID environment variable is required")) ∧
    service_ready env = false := by
  constructor
  · simp [DriveService.init, h]
  · simp [service_ready, DriveService.init, h, Except.isOk, Except.toBool]

/-- Claim C9: every error from the list or get-content operation is caught at
the request-handler boundary and converted into an HTTP error response (a 500
carrying `str(e)`); the handlers are total — each request yields exactly one
response from one invocation of the operation, never a retry or a crash. -/
theorem handlers_catch_all_errors (env : Env) (st : ServiceState)
    (p : Provider) (pdfExtract : List Nat → List (List Char)) (fid : String) :
    ((∃ files, list_files_endpoint env st p = .ok files) ∨
      (∃ e, list_files env st p = .error e ∧
        list_files_endpoint env st p = .error ⟨500, pyStr e⟩)) ∧
    ((∃ c, get_file_endpoint env st p pdfExtract fid = .ok c) ∨
      (∃ e, get_file_content env st p pdfExtract fid = .error e ∧
        get_file_endpoint env st p pdfExtract fid = .error ⟨500, pyStr e⟩)) := by
  constructor
  · cases h : list_files env st p with
    | ok v =>
      exact .inl ⟨v.1, by simp [list_files_endpoint, h]⟩
    | error e =>
      exact .inr ⟨e, rfl, by simp [list_files_endpoint, h]⟩
  · cases h : get_file_content env st p pdfExtract fid with
    | ok v =>
      exact .inl ⟨v.1, by simp [get_file_endpoint, h]⟩
    | error e =>
      exact .inr ⟨e, rfl, by simp [get_file_endpoint, h]⟩

/-- Claim C10: a startup-hook authentication failure is only logged — the
service still becomes ready with no session — and the next list or
get-content call re-attempts authentication because no session handle
exists, surfacing that same authentication error. -/
theorem startup_failure_lazy_reauth (env : Env) (st : ServiceState)
    (p : Provider) (pdfExtract : List Nat → List (List Char)) (fid : String)
    (e : HTTPException)
    (hs : st.service = none) (ha : authenticate env = .error e) :
    startup_event env st = (st, true) ∧
    list_files env st p = .error (.http e) ∧
    get_file_content env st p pdfExtract fid = .error (.http e) := by
  refine ⟨?_, ?_, ?_⟩
  · simp [startup_event, ha]
  · simp [list_files, ensure_session, hs, ha]
  · simp [get_file_content, ensure_session, hs, ha]

/-- Test environment: folder configured, no credentials of either kind. -/
def envNone : Env :=
  { gdriveFolderId := some ("folder123"), credPath := none, credJson := none,
    pathExists := fun _ => false,
    loadFileCreds := fun _ => .error ("bad file"),
    loadInfoCreds := fun _ => .error ("bad json") }

/-- Test environment: credential file path configured and present. -/
def envFileOk : Env :=
  { gdriveFolderId := some ("folder123"), credPath := some ("/creds.json"),
    credJson := some ("inlinecreds"), pathExists := fun _ => true,
    loadFileCreds := fun _ => .ok ⟨1⟩,
    loadInfoCreds := fun _ => .ok ⟨2⟩ }

/-- Test environment: only inline credential text configured. -/
def envJsonOk : Env :=
  { gdriveFolderId := some ("folder123"), credPath := none,
    credJson := some ("inlinecreds"), pathExists := fun _ => false,
    loadFileCreds := fun _ => .error ("bad file"),
    loadInfoCreds := fun _ => .ok ⟨2⟩ }

/-- Test environment: `GDRIVE_FOLDER_ID` unset. -/
def envMissing : Env :=
  { gdriveFolderId := none, credPath := none, credJson := none,
    pathExists := fun _ => false,
    loadFileCreds := fun _ => .error ("bad file"),
    loadInfoCreds := fun _ => .error ("bad json") }

/-- Service state with an established session. -/
def stSess : ServiceState := { service := some ⟨7⟩, folder_id := "folder123" }

/-- Service state with no session yet. -/
def stNoSess : ServiceState := { service := none, folder_id := "folder123" }

/-- Provider whose metadata endpoint declares an unsupported content type. -/
def provZip : Provider :=
  { drive := [], listError := none,
    getMetaResult := fun _ => .ok ("archive.zip", "application/zip"),
    exportChunks := fun _ _ => [], mediaChunks := fun _ => [] }

/-- Provider whose listing endpoint raises an `HttpError`. -/
def provListErr : Provider :=
  { drive := [], listError := some ("quota exceeded"),
    getMetaResult := fun _ => .error ("not found"),
    exportChunks := fun _ _ => [], mediaChunks := fun _ => [] }

/-- Provider holding a native document whose plain-text export is delivered
in two chunks spelling "hi". -/
def provDoc : Provider :=
  { drive := [], listError := none,
    getMetaResult := fun _ => .ok ("notes", "application/vnd.google-apps.document"),
    exportChunks := fun _ _ => [[104], [105]],
    mediaChunks := fun _ => [] }

/-- Provider holding a PDF delivered in two media chunks. -/
def provPdf : Provider :=
  { drive := [], listError := none,
    getMetaResult := fun _ => .ok ("report.pdf", "application/pdf"),
    exportChunks := fun _ _ => [],
    mediaChunks := fun _ => [[1, 2], [3]] }

/-- Provider with a mixed folder: two live children of the configured folder,
one child of another folder, one trashed child. -/
def provFolder : Provider :=
  { drive := [
      { id := "a1", name := "notes.txt", mimeType := "text/plain",
        parents := ["folder123"], trashed := false },
      { id := "b2", name := "other.txt", mimeType := "text/plain",
        parents := ["elsewhere"], trashed := false },
      { id := "c3", name := "old.txt", mimeType := "text/plain",
        parents := ["folder123"], trashed := true },
      { id := "d4", name := "report.pdf", mimeType := "application/pdf",
        parents := ["folder123"], trashed := false }],
    listError := none,
    getMetaResult := fun _ => .error ("not found"),
    exportChunks := fun _ _ => [], mediaChunks := fun _ => [] }

/-- PDF extractor stub returning no pages. -/
def pdfNoPages : List Nat → List (List Char) := fun _ => []

/-- PDF extractor stub returning two one-character pages. -/
def pdfTwoPages : List Nat → List (List Char) := fun _ => [['a'], ['b']]

/-- Witness for C1 at `application/zip`. -/
theorem getContent_unsupported_type_400_witness :
    get_file_content envNone stSess provZip pdfNoPages ("f1") =
      .error (.http ⟨400, ("Unsupported file type: ") ++ ("application/zip")⟩) :=
  getContent_unsupported_type_400 envNone stSess provZip pdfNoPages ("f1") ⟨7⟩
    ("archive.zip") ("application/zip") rfl rfl (by decide) (by decide)
    (by decide) (by decide) (by decide)

/-- Witness for C2 at a provider raising "quota exceeded". -/
theorem listFiles_provider_error_400_witness :
    list_files envNone stSess provListErr =
      .error (.http ⟨400, ("Error listing files: ") ++ ("quota exceeded")⟩) :=
  listFiles_provider_error_400 envNone stSess provListErr ⟨7⟩ ("quota exceeded")
    rfl rfl

/-- Witness for C3 at a two-page PDF: pages "a" and "b" join to "a\nb". -/
theorem getContent_pdf_pages_joined_witness :
    get_file_content envNone stSess provPdf pdfTwoPages ("f3") =
      .ok ({ id := "f3", name := "report.pdf",
             content := ['a', '\n', 'b'] }, stSess) :=
  getContent_pdf_pages_joined envNone stSess provPdf pdfTwoPages ("f3") ⟨7⟩
    ("report.pdf") rfl rfl

/-- Witness for C4 at three concrete environments: file credentials win,
inline credentials are the fallback, and with neither the no-credentials
failure surfaces as a 500. -/
theorem authenticate_resolution_order_witness :
    authenticate envFileOk = .ok ⟨1⟩ ∧
    authenticate envJsonOk = .ok ⟨2⟩ ∧
    authenticate envNone = .error ⟨500, ("Authentication failed: ") ++
      ("No valid Google credentials found. Set GOOGLE_APPLICATION_CREDENTIALS or GOOGLE_SERVICE_ACCOUNT_JSON")⟩ := by
  refine ⟨?_, ?_, ?_⟩
  · exact (authenticate_resolution_order envFileOk).1 rfl
  · exact (authenticate_resolution_order envJsonOk).2.1 rfl rfl
  · exact (authenticate_resolution_order envNone).2.2.1 rfl rfl

/-- Witness for C5 on the mixed folder: exactly the two live children of
`folder123`, in provider order. -/
theorem listFiles_exactly_matching_witness :
    list_files envNone stSess provFolder =
      .ok ([{ id := "a1", name := "notes.txt" },
            { id := "d4", name := "report.pdf" }], stSess) :=
  listFiles_exactly_matching envNone stSess provFolder ⟨7⟩ rfl rfl

/-- Witness for C6: a 3-chunk delivery equals the 1-chunk delivery. -/
theorem chunked_download_accumulation_witness :
    ([[1, 2], [3], [4, 5]] : List (List Nat)).flatten = [1, 2, 3, 4, 5] ∧
    downloadAll [[1, 2], [3], [4, 5]] = downloadAll [[1, 2, 3, 4, 5]] :=
  ⟨by decide,
    chunked_download_accumulation [1, 2, 3, 4, 5] [[1, 2], [3], [4, 5]] (by decide)⟩

/-- Witness for C7: a document whose export bytes are "hi" in two chunks
comes back as the text "hi". -/
theorem getContent_doc_utf8_verbatim_witness :
    get_file_content envNone stSess provDoc pdfNoPages ("f7") =
      .ok ({ id := "f7", name := "notes", content := ['h', 'i'] }, stSess) :=
  getContent_doc_utf8_verbatim envNone stSess provDoc pdfNoPages ("f7") ⟨7⟩
    ("notes") (['h', 'i']) rfl rfl (by decide)

/-- Witness for C8 at an environment with `GDRIVE_FOLDER_ID` unset. -/
theorem missing_folder_id_fatal_witness :
    DriveService.init envMissing =
      .error (.valueError ("GDRIVE_FOLDER_ID environment variable is required")) ∧
    service_ready envMissing = false :=
  missing_folder_id_fatal envMissing rfl

/-- Witness for C10: with no credentials, startup swallows the failure and
stays ready; the next list and get-content calls surface the same 500. -/
theorem startup_failure_lazy_reauth_witness :
    startup_event envNone stNoSess = (stNoSess, true) ∧
    list_files envNone stNoSess provFolder = .error (.http ⟨500,
      ("Authentication failed: ") ++
      ("No valid Google credentials found. Set GOOGLE_APPLICATION_CREDENTIALS or GOOGLE_SERVICE_ACCOUNT_JSON")⟩) ∧
    get_file_content envNone stNoSess provFolder pdfNoPages ("f10") =
      .error (.http ⟨500, ("Authentication failed: ") ++
      ("No valid Google credentials found. Set GOOGLE_APPLICATION_CREDENTIALS or GOOGLE_SERVICE_ACCOUNT_JSON")⟩) :=
  startup_failure_lazy_reauth envNone stNoSess provFolder pdfNoPages ("f10")
    ⟨500, ("Authentication failed: ") ++
      ("No valid Google credentials found. Set GOOGLE_APPLICATION_CREDENTIALS or GOOGLE_SERVICE_ACCOUNT_JSON")⟩
    rfl rfl
